import Mathlib

/-!
Verification of the request-metrics aggregation and health-reporting
subsystem of the DevOps demo web service (src/app.py, src/config.py).

Durations and wall-clock instants are modelled as rationals (ℚ);
the Python code uses binary floats, but every claim under scrutiny is an
exact arithmetic identity, so the embedding works over exact arithmetic.
Python expressions that can raise (division by zero) are embedded as
Option-valued functions, with none standing for the raised exception.
-/

/-! ### Rolling window of request durations (app.py lines 107-116)

The after_request hook does
  request_times.append(duration)
  if len(request_times) > 1000: request_times.pop(0)
The window is the list request_times; pop(0) removes the head.
-/

/-- One after_request update of the rolling window (app.py lines 112-116):
append the new duration, then drop the head if the length exceeds 1000. -/
def record (w : List ℚ) (d : ℚ) : List ℚ :=
  let w2 := w ++ [d]
  if w2.length > 1000 then w2.tail else w2

/-- The window produced by a sequence of completed requests with the given
durations, starting from the initial empty request_times list
(app.py line 91). -/
def windowAfter (ds : List ℚ) : List ℚ :=
  List.foldl record [] ds

lemma record_length_le (w : List ℚ) (d : ℚ) (h : w.length ≤ 1000) :
    (record w d).length ≤ 1000 := by
  unfold record
  dsimp only
  split
  · simpa using h
  · next h1 => simp at h1 ⊢; omega

lemma record_eq_drop (w : List ℚ) (d : ℚ) (h : w.length ≤ 1000) :
    record w d = (w ++ [d]).drop (w.length + 1 - 1000) := by
  unfold record
  dsimp only
  split
  · next h1 =>
      have h2 : w.length + 1 - 1000 = 1 := by simp at h1; omega
      rw [h2, List.drop_one]
  · next h1 =>
      have h2 : w.length + 1 - 1000 = 0 := by simp at h1; omega
      rw [h2, List.drop_zero]

lemma foldl_record_drop (ds : List ℚ) :
    ∀ w : List ℚ, w.length ≤ 1000 →
      List.foldl record w ds = (w ++ ds).drop (w.length + ds.length - 1000) := by
  induction ds with
  | nil =>
      intro w h
      have h0 : w.length - 1000 = 0 := by omega
      simp [h0]
  | cons d ds ih =>
      intro w h
      have hlen := record_length_le w d h
      have heq := record_eq_drop w d h
      rw [List.foldl_cons, ih (record w d) hlen, heq]
      have hk : w.length + 1 - 1000 ≤ (w ++ [d]).length := by simp; omega
      rw [← List.drop_append_of_le_length hk, List.drop_drop]
      have hidx : w.length + 1 - 1000 +
          (((w ++ [d]).drop (w.length + 1 - 1000)).length + ds.length - 1000) =
          w.length + (d :: ds).length - 1000 := by
        simp [List.length_drop]; omega
      rw [hidx]
      have hl : (w ++ [d]) ++ ds = w ++ d :: ds := by simp
      rw [hl]

/-! ### JSON metrics endpoint, GET /api/v1/metrics (app.py lines 184-197)

  if request_times:
      avg_response_time = sum(request_times) / len(request_times)
      requests_per_second = len(request_times) / (time.time() - start_time)
  else:
      avg_response_time = 0
      requests_per_second = 0
  return {"requests_total": len(request_times), ...}
-/

/-- The payload of GET /api/v1/metrics. -/
structure MetricsPayload where
  requests_total : Nat
  requests_per_second : ℚ
  average_response_time : ℚ
deriving DecidableEq, Repr

/-- Embedding of MetricsAPI.get (app.py lines 184-197). The window
request_times, the current wall clock and the process start_time are passed
explicitly. Python raises ZeroDivisionError when the divisor
time.time() - start_time is zero and the window is non-empty; the embedding
returns none there. The average division cannot raise: its divisor is the
length of a list the same branch knows to be non-empty. -/
def metricsGet (request_times : List ℚ) (now startTime : ℚ) : Option MetricsPayload :=
  if request_times ≠ [] then
    if now - startTime = 0 then none
    else
      some { requests_total := request_times.length,
             requests_per_second := (request_times.length : ℚ) / (now - startTime),
             average_response_time := request_times.sum / (request_times.length : ℚ) }
  else
    some { requests_total := request_times.length,
           requests_per_second := 0,
           average_response_time := 0 }

lemma metricsGet_requests_total (w : List ℚ) (now st : ℚ) (h : now - st ≠ 0) :
    (metricsGet w now st).map MetricsPayload.requests_total = some w.length := by
  unfold metricsGet
  by_cases hw : w = [] <;> simp [hw, h]

/-! ### Health endpoint, GET /health (app.py lines 142-152)

  uptime = time.time() - start_time
  health_data = {"status": "healthy",
                 "timestamp": datetime.utcnow().isoformat(),
                 "version": "1.0.0", "uptime": uptime}
The timestamp string is produced by the external datetime library
(the ISO-8601 rendering of the current UTC time); it is passed in opaquely.
-/

/-- The payload of GET /health. -/
structure HealthData where
  status : String
  timestamp : String
  version : String
  uptime : ℚ
deriving DecidableEq, Repr

/-- Embedding of the health view (app.py lines 142-152). now is the value
of time.time() at the call, startTime the module-level start_time
(app.py line 90), utcIso the ISO-8601 UTC timestamp string delivered by
datetime.utcnow().isoformat(). -/
def health (now startTime : ℚ) (utcIso : String) : HealthData :=
  { status := "healthy",
    timestamp := utcIso,
    version := "1.0.0",
    uptime := now - startTime }

/-! ### Request counters (app.py lines 119-121)

  REQUEST_COUNT.labels(method=..., endpoint=..., status=...).inc()
The counter store itself lives in the external prometheus_client library;
its semantics are modelled from the spec.
-/

/-- A counter key: (method, endpoint, statusCode). -/
abbrev CounterKey := String × String × Nat

/-- Modelled from the spec: the prometheus_client Counter family behind
REQUEST_COUNT.labels(...).inc() (app.py lines 119-121) is external to the
repository; per the spec it increments the counter for exactly the given
key, creating it with value 1 if absent. Counters are a total map from keys
to counts, with absent keys at 0. -/
def incrementRequestCount (c : CounterKey → Nat) (k : CounterKey) : CounterKey → Nat :=
  fun q => if q = k then c k + 1 else c q

/-! ### Info endpoint, GET /api/v1/info (app.py lines 200-219)

  @cache.cached(timeout=300)
  @app.route("/api/v1/info")
  def info(): return jsonify({...})

Decorators apply bottom-up: app.route runs first and registers the
UNWRAPPED function as the view (the route decorator of Flask returns its
argument unchanged after registration); cache.cached then wraps the
module-level name only, which the Flask dispatcher never calls. The
registered view therefore recomputes the payload on every request and
never touches the cache.
-/

/-- The JSON payload built by the info view body (app.py lines 204-219).
env is the value of app.config.get("ENV", "development"). -/
structure InfoPayload where
  name : String
  description : String
  version : String
  environment : String
  features : List String
deriving DecidableEq, Repr

/-- The pure computation inside the info view body (app.py lines 204-219). -/
def computeInfo (env : String) : InfoPayload :=
  { name := "DevOps Demo Application",
    description := "A demonstration of DevOps best practices",
    version := "1.0.0",
    environment := env,
    features := ["Health monitoring", "Metrics collection", "Structured logging",
                 "API documentation", "Caching", "Security headers"] }

/-- State of the single-entry TTL cache plus an instrumentation counter:
cached holds the stored payload and its store time (none before any store);
computeCount counts how often the view body was recomputed. -/
structure InfoCacheState where
  cached : Option (InfoPayload × ℚ)
  computeCount : Nat
deriving DecidableEq, Repr

/-- Embedding of one dispatched request to GET /api/v1/info as the code
stands (app.py lines 200-202): because app.route is the inner decorator,
Flask registered the unwrapped view, so every request recomputes the
payload and the cache state is never read or written. -/
def registeredInfoCall (env : String) (_now : ℚ) (s : InfoCacheState) :
    InfoPayload × InfoCacheState :=
  (computeInfo env, { s with computeCount := s.computeCount + 1 })

/-- Modelled from the spec: the InfoCache get() contract (spec section 4.4)
that the cache.cached(timeout=300) decorator was meant to provide — return
the cached payload while its age is below the TTL, otherwise recompute,
store and reset the age. -/
def cachedInfoCall (ttl : ℚ) (env : String) (now : ℚ) (s : InfoCacheState) :
    InfoPayload × InfoCacheState :=
  match s.cached with
  | some (p, t) =>
      if now - t < ttl then (p, s)
      else (computeInfo env, ⟨some (computeInfo env, now), s.computeCount + 1⟩)
  | none => (computeInfo env, ⟨some (computeInfo env, now), s.computeCount + 1⟩)

/-! ### Routing and the 404 handler (app.py lines 136-230)

Routes registered on the app: "/" (index), "/health", "/metrics",
"/api/v1/info", plus the flask_restx resources "/api/v1/status" and
"/api/v1/metrics" and the documentation page "/docs/". The 404 error
handler (app.py lines 222-230) returns a fixed JSON body with status 404.
-/

/-- The paths registered on the Flask app (app.py lines 136-219 and the
flask_restx Api with doc="/docs/", lines 55-61). -/
def registeredRoutes : List String :=
  ["/", "/health", "/metrics", "/api/v1/status", "/api/v1/metrics",
   "/api/v1/info", "/docs/"]

/-- A JSON error body with error and message fields. -/
structure JsonError where
  error : String
  message : String
deriving DecidableEq, Repr

/-- Result of dispatching a request path: either some registered view
handles it, or an error response is returned. -/
inductive DispatchResult where
  | handled (path : String)
  | clientError (body : JsonError) (status : Nat)
deriving DecidableEq, Repr

/-- The fixed response of the 404 handler (app.py lines 222-230). -/
def not_found : JsonError × Nat :=
  ({ error := "Not found", message := "The requested resource was not found" }, 404)

/-- Embedding of route dispatch: a request path that matches no registered
route falls through to the 404 error handler. -/
def dispatch (path : String) : DispatchResult :=
  if path ∈ registeredRoutes then .handled path
  else .clientError not_found.1 not_found.2

/-! ### Configuration factory (config.py lines 314-326)

  def get_config(environment=None):
      if environment is None:
          environment = os.getenv("FLASK_ENV", "development")
      configs = {"development": ..., "testing": ..., "production": ...}
      config_class = configs.get(environment.lower(), DevelopmentConfig)
      return config_class()
-/

/-- Which Config subclass get_config instantiates. -/
inductive ConfigKind where
  | development
  | testing
  | production
deriving DecidableEq, Repr

/-- Python str.lower, character by character (the strings involved are
ASCII). -/
def pyLower (s : String) : String :=
  ⟨s.data.map Char.toLower⟩

/-- The configs dictionary of get_config (config.py lines 319-323). -/
def configs : List (String × ConfigKind) :=
  [("development", ConfigKind.development),
   ("testing", ConfigKind.testing),
   ("production", ConfigKind.production)]

/-- Embedding of get_config (config.py lines 314-326). environment is the
optional argument; flaskEnv is the optional FLASK_ENV environment variable
read when the argument is None. The dict .get with a default makes the
lookup total, mirrored by List.lookup and getD. -/
def get_config (environment : Option String) (flaskEnv : Option String) : ConfigKind :=
  let env := match environment with
    | none => flaskEnv.getD "development"
    | some e => e
  (configs.lookup (pyLower env)).getD ConfigKind.development

/-! ## Claim theorems -/

/-- C2: for every sequence of record(d) calls with d ≥ 0 applied to the
initially empty window, the window is always exactly the most recent 1000
durations in arrival order (so insertion order is preserved and the oldest
sample, index 0, is evicted first), and its length is min(N, 1000) ≤ 1000.
Universality over ds covers the state after every intermediate call. -/
theorem record_window_fifo (ds : List ℚ) (_hpos : ∀ d ∈ ds, 0 ≤ d) :
    windowAfter ds = ds.drop (ds.length - 1000) ∧
    (windowAfter ds).length = min ds.length 1000 ∧
    (windowAfter ds).length ≤ 1000 := by
  have h := foldl_record_drop ds [] (by simp)
  simp only [windowAfter, List.nil_append, List.length_nil, Nat.zero_add] at h ⊢
  refine ⟨h, ?_, ?_⟩ <;> rw [h, List.length_drop] <;> omega

/-- C2 witness: the theorem applied to the concrete run [0, 0, 0]. -/
theorem record_window_fifo_witness :
    (∀ d ∈ ([0, 0, 0] : List ℚ), 0 ≤ d) ∧
    (windowAfter [0, 0, 0] =
        ([0, 0, 0] : List ℚ).drop (([0, 0, 0] : List ℚ).length - 1000) ∧
      (windowAfter ([0, 0, 0] : List ℚ)).length = min ([0, 0, 0] : List ℚ).length 1000 ∧
      (windowAfter ([0, 0, 0] : List ℚ)).length ≤ 1000) :=
  ⟨by simp, record_window_fifo [0, 0, 0] (by simp)⟩

/-- C1 counterexample: with the non-empty window [1] and elapsed time
now - start_time = 1 - 1 = 0 ≤ 0, the metrics computation does not return a
payload with requests_per_second 0; it raises ZeroDivisionError (none),
contradicting the claim that elapsed ≤ 0 yields 0 even for a non-empty
window. -/
theorem metrics_rps_div_by_zero : metricsGet [1] 1 1 = none := by
  simp [metricsGet]

/-- C1 amended: the division-by-zero guard is the emptiness test on the
window, not a test on the elapsed time. An empty window yields 0 for every
elapsed value; a non-empty window yields len(window)/elapsed whenever
elapsed ≠ 0 (negative elapsed included, giving a negative rate, not 0), and
raises ZeroDivisionError when elapsed = 0. -/
theorem metrics_rps_guard (w : List ℚ) (now st : ℚ) :
    (w = [] → metricsGet w now st =
      some { requests_total := 0, requests_per_second := 0,
             average_response_time := 0 }) ∧
    (w ≠ [] → now - st = 0 → metricsGet w now st = none) ∧
    (w ≠ [] → now - st ≠ 0 →
      (metricsGet w now st).map MetricsPayload.requests_per_second =
        some ((w.length : ℚ) / (now - st))) := by
  refine ⟨?_, ?_, ?_⟩
  · intro hw; subst hw; simp [metricsGet]
  · intro hw h0; simp [metricsGet, hw, h0]
  · intro hw h0; simp [metricsGet, hw, h0]

/-- C1 amended witness: the non-empty branch at window [1], now 1, st 0,
where the elapsed time is 1 ≠ 0 and the returned rate is 1/(1-0). -/
theorem metrics_rps_guard_witness :
    (([1] : List ℚ) ≠ [] ∧ (1 : ℚ) - 0 ≠ 0) ∧
    (metricsGet [1] 1 0).map MetricsPayload.requests_per_second =
      some ((([1] : List ℚ).length : ℚ) / ((1 : ℚ) - 0)) :=
  ⟨⟨by simp, by simp⟩, (metrics_rps_guard [1] 1 0).2.2 (by simp) (by simp)⟩

/-- C3: whenever the metrics computation returns a payload, its
average_response_time field is 0 for an empty window and the arithmetic
mean of the samples for a non-empty one (stated multiplicatively:
len * average = sum); in particular the window [1, 2, 3] reports average
2. -/
theorem metrics_average_mean (w : List ℚ) (now st : ℚ) (p : MetricsPayload)
    (hp : metricsGet w now st = some p) :
    (w = [] → p.average_response_time = 0) ∧
    (w ≠ [] → (w.length : ℚ) * p.average_response_time = w.sum) ∧
    (metricsGet [1, 2, 3] 2 1).map MetricsPayload.average_response_time = some 2 := by
  refine ⟨?_, ?_, ?_⟩
  · intro hw; subst hw
    simp [metricsGet] at hp
    rw [← hp]
  · intro hw
    have hlen : ((w.length : ℚ)) ≠ 0 := by
      simpa using hw
    by_cases h0 : now - st = 0
    · simp [metricsGet, hw, h0] at hp
    · simp [metricsGet, hw, h0] at hp
      rw [← hp]
      field_simp
  · simp [metricsGet]
    norm_num

/-- C3 witness: the theorem applied at window [1, 2, 3], now 2, st 1, whose
payload is requests_total 3, requests_per_second 3, average 2. -/
theorem metrics_average_mean_witness :
    metricsGet [1, 2, 3] 2 1 =
      some { requests_total := 3, requests_per_second := 3,
             average_response_time := 2 } ∧
    (([1, 2, 3] : List ℚ) ≠ []) ∧
    ((([1, 2, 3] : List ℚ).length : ℚ) *
        (MetricsPayload.mk 3 3 2).average_response_time = ([1, 2, 3] : List ℚ).sum) := by
  have hp : metricsGet [1, 2, 3] 2 1 =
      some { requests_total := 3, requests_per_second := 3,
             average_response_time := 2 } := by
    simp [metricsGet]
    norm_num
  exact ⟨hp, by simp,
    (metrics_average_mean [1, 2, 3] 2 1 _ hp).2.1 (by simp)⟩

/-- C9: after any N completed requests, the requests_total integer of
GET /api/v1/metrics (read at any instant with non-zero elapsed time, so the
endpoint returns) equals the rolling-window length min(N, 1000), hence
never exceeds 1000. -/
theorem requests_total_min (ds : List ℚ) (now st : ℚ) (h : now - st ≠ 0) :
    (metricsGet (windowAfter ds) now st).map MetricsPayload.requests_total =
      some (min ds.length 1000) ∧ min ds.length 1000 ≤ 1000 := by
  have hw : windowAfter ds = ds.drop (ds.length - 1000) := by
    have h1 := foldl_record_drop ds [] (by simp)
    simpa [windowAfter] using h1
  have hlen : (windowAfter ds).length = min ds.length 1000 := by
    rw [hw, List.length_drop]; omega
  have ht := metricsGet_requests_total (windowAfter ds) now st h
  refine ⟨?_, by omega⟩
  rw [ht, hlen]

/-- C9 witness: the empty run read at now 1, st 0. -/
theorem requests_total_min_witness :
    ((1 : ℚ) - 0 ≠ 0) ∧
    ((metricsGet (windowAfter []) 1 0).map MetricsPayload.requests_total =
        some (min ([] : List ℚ).length 1000) ∧
      min ([] : List ℚ).length 1000 ≤ 1000) :=
  ⟨by simp, requests_total_min [] 1 0 (by simp)⟩

/-- C4: the claim says a second info request within the 300-second TTL is
served from the cache without recomputation. On the code as written it is
not: app.route is the inner decorator, so Flask registered the unwrapped
view and every request recomputes. Two requests at times 0 and 10 (age
10 < 300) recompute twice under the registered view, while the
spec-modelled TTL cache computes once; both produce the same payload. -/
theorem info_cache_decorator_bug (env : String) :
    (registeredInfoCall env 10 (registeredInfoCall env 0 ⟨none, 0⟩).2).2.computeCount
        = 2 ∧
    (registeredInfoCall env 10 (registeredInfoCall env 0 ⟨none, 0⟩).2).1
        = computeInfo env ∧
    (cachedInfoCall 300 env 10 (cachedInfoCall 300 env 0 ⟨none, 0⟩).2).2.computeCount
        = 1 ∧
    (cachedInfoCall 300 env 10 (cachedInfoCall 300 env 0 ⟨none, 0⟩).2).1
        = computeInfo env := by
  refine ⟨rfl, rfl, ?_, ?_⟩ <;>
    · simp [cachedInfoCall]
      norm_num

/-- C5: incrementing the counter for a key adds exactly one to that key
(so a key absent from the map, at 0, is created at 1), leaves every other
key unchanged, never decreases any count, and incrementing
(GET, /health, 200) twice from the empty map yields count 2. -/
theorem increment_request_count_frame (c : CounterKey → Nat) (k q : CounterKey) :
    incrementRequestCount c k k = c k + 1 ∧
    (q ≠ k → incrementRequestCount c k q = c q) ∧
    c q ≤ incrementRequestCount c k q ∧
    incrementRequestCount
        (incrementRequestCount (fun _ => 0) ("GET", "/health", 200))
        ("GET", "/health", 200) ("GET", "/health", 200) = 2 := by
  refine ⟨by simp [incrementRequestCount], fun hq => by simp [incrementRequestCount, hq],
    ?_, by simp [incrementRequestCount]⟩
  by_cases hq : q = k <;> simp [incrementRequestCount, hq]

/-- C5 witness: the theorem applied to the empty counter map, key
(GET, /health, 200) and the distinct key (GET, /metrics, 200). -/
theorem increment_request_count_frame_witness :
    (("GET", "/metrics", 200) : CounterKey) ≠ ("GET", "/health", 200) ∧
    incrementRequestCount (fun _ => 0) ("GET", "/health", 200)
      ("GET", "/metrics", 200) = (fun _ => (0 : Nat)) ("GET", "/metrics", 200) :=
  ⟨by decide,
    (increment_request_count_frame (fun _ => 0) ("GET", "/health", 200)
      ("GET", "/metrics", 200)).2.1 (by decide)⟩

/-- C6: every health call succeeds (the embedding is a total function) and
returns status "healthy", the ISO-8601 timestamp string of the UTC clock, the
static version "1.0.0", and uptime now - start_time. -/
theorem health_status_fields (now st : ℚ) (ts : String) :
    (health now st ts).status = "healthy" ∧
    (health now st ts).timestamp = ts ∧
    (health now st ts).version = "1.0.0" ∧
    (health now st ts).uptime = now - st :=
  ⟨rfl, rfl, rfl, rfl⟩

/-- C7: within one process lifetime (start_time ≤ the first reading, wall
clock non-decreasing between the two readings), each reported uptime is
nonnegative and the second is at least the first. -/
theorem health_uptime_monotone (st t1 t2 : ℚ) (ts1 ts2 : String)
    (h1 : st ≤ t1) (h2 : t1 ≤ t2) :
    0 ≤ (health t1 st ts1).uptime ∧
    (health t1 st ts1).uptime ≤ (health t2 st ts2).uptime := by
  constructor
  · simpa [health] using h1
  · simpa [health] using h2

/-- C7 witness: start_time 0, readings at times 1 and 2. -/
theorem health_uptime_monotone_witness :
    ((0 : ℚ) ≤ 1 ∧ (1 : ℚ) ≤ 2) ∧
    (0 ≤ (health 1 0 "t1").uptime ∧
      (health 1 0 "t1").uptime ≤ (health 2 0 "t2").uptime) :=
  ⟨⟨by norm_num, by norm_num⟩,
    health_uptime_monotone 0 1 2 "t1" "t2" (by norm_num) (by norm_num)⟩

/-- C8: every request path matching no registered route is answered by the
fixed JSON body of the 404 handler, whose error field is "Not found". -/
theorem unknown_route_not_found (path : String) (h : path ∉ registeredRoutes) :
    dispatch path =
      DispatchResult.clientError
        { error := "Not found", message := "The requested resource was not found" }
        404 ∧
    not_found.1.error = "Not found" ∧ not_found.2 = 404 := by
  refine ⟨?_, rfl, rfl⟩
  simp [dispatch, h, not_found]

/-- C8 witness: the theorem applied to the unregistered path /nonexistent. -/
theorem unknown_route_not_found_witness :
    ("/nonexistent" ∉ registeredRoutes) ∧
    (dispatch "/nonexistent" =
        DispatchResult.clientError
          { error := "Not found", message := "The requested resource was not found" }
          404 ∧
      not_found.1.error = "Not found" ∧ not_found.2 = 404) :=
  ⟨by decide, unknown_route_not_found "/nonexistent" (by decide)⟩

/-- C10: get_config is total (the embedding is a function, mirroring the
dict .get with default: no lookup failure is possible) and returns the
testing config for "testing", the production config for "production", both
case-insensitively, and the development config for "development" and for
every other string; when the argument is None it falls back to the
FLASK_ENV variable, or to "development" when that is unset. -/
theorem get_config_cases (e : String) (f : Option String) :
    (pyLower e = "testing" → get_config (some e) f = ConfigKind.testing) ∧
    (pyLower e = "production" → get_config (some e) f = ConfigKind.production) ∧
    (pyLower e ≠ "testing" → pyLower e ≠ "production" →
      get_config (some e) f = ConfigKind.development) ∧
    get_config none f = get_config (some (f.getD "development")) f := by
  refine ⟨?_, ?_, ?_, rfl⟩
  · intro he; simp [get_config, configs, List.lookup, he]
  · intro he; simp [get_config, configs, List.lookup, he]
  · intro ht hp
    by_cases hd : pyLower e = "development"
    · simp [get_config, configs, List.lookup, hd]
    · have hb1 : (pyLower e == "development") = false := beq_eq_false_iff_ne.mpr hd
      have hb2 : (pyLower e == "testing") = false := beq_eq_false_iff_ne.mpr ht
      have hb3 : (pyLower e == "production") = false := beq_eq_false_iff_ne.mpr hp
      simp [get_config, configs, List.lookup, hb1, hb2, hb3]

/-- C10 witness: the theorem applied to the mixed-case argument
"Production" with no FLASK_ENV set. -/
theorem get_config_cases_witness :
    pyLower "Production" = "production" ∧
    get_config (some "Production") none = ConfigKind.production :=
  ⟨by decide, (get_config_cases "Production" none).2.1 (by decide)⟩
